import Mathlib

/-!
# FiducialRegistrationWizard logic

A shallow embedding of `Logic/vtkSlicerFiducialRegistrationWizardLogic.cxx`
and theorems about it.

Conventions of the embedding.

* `F` is the coordinate type (`double` in the source).  The module never
  computes with coordinates, it only copies them, so `F` is kept abstract; the
  single constant the source writes is `0` (the initialiser `{ 0, 0, 0 }`).
* A pointer argument is an `Option`: `none` is `NULL`.
* Objects are values.  A method that mutates its receiver returns the new
  receiver, and the caller-visible objects are threaded through explicitly.
* A `vtkPoints` made by `vtkPoints::New()` keeps its coordinates in single
  precision (`VTK_FLOAT`; the source never calls `SetDataTypeToDouble`).  The
  conversion of a `double` to `float`, read back as a `double`, is the
  parameter `toFloat`; a stored coordinate is written as the `double` it reads
  back as.
* The numerical solver behind `vtkLandmarkTransform::Update` belongs to VTK,
  not to this module; it is a parameter named `registration`, and it runs on
  the two `vtkPoints` collections it was given.
* `vtkMRMLTransformNode::GetMatrixTransformToWorld` belongs to MRML; it is a
  parameter of the same name.
-/

namespace FiducialRegistrationWizard

/-! ## Data model -/

/-- A `double[3]` position. -/
structure Point (F : Type) where
  x : F
  y : F
  z : F
  deriving DecidableEq, Repr

/-- The storage of a `vtkMatrix4x4`, `double Element[4][4]`: row, then column. -/
abbrev vtkMatrix4x4 (F : Type) := Fin 4 → Fin 4 → F

/-- The accessor `vtkMatrix4x4::GetElement( i, j )`. -/
def vtkMatrix4x4.GetElement {F : Type} (m : vtkMatrix4x4 F) (i j : Fin 4) : F := m i j

/-- The matrix `vtkMatrix4x4::Identity` writes. -/
def vtkMatrix4x4.Identity {F : Type} [Zero F] [One F] : vtkMatrix4x4 F :=
  fun i j => if i = j then 1 else 0

/-- A position after each of its coordinates went through `toFloat`. -/
def Point.toSinglePrecision {F : Type} (toFloat : F → F) (p : Point F) : Point F :=
  ⟨toFloat p.x, toFloat p.y, toFloat p.z⟩

/-- A `vtkPoints` collection with the storage `vtkPoints::New()` gives it, single
precision: the points in insertion order, each coordinate as the `double` the
stored `float` reads back as. -/
structure vtkPoints (F : Type) where
  Data : List (Point F)
  deriving DecidableEq, Repr

/-- The constructor `vtkPoints::New()`: an empty collection. -/
def vtkPoints.New {F : Type} : vtkPoints F := ⟨[]⟩

/-- The method `vtkPoints::InsertNextPoint( const double x[3] )`: the point goes
after the last one, its coordinates converted to the single-precision storage. -/
def vtkPoints.InsertNextPoint {F : Type} (toFloat : F → F) (points : vtkPoints F)
    (p : Point F) : vtkPoints F :=
  ⟨points.Data ++ [p.toSinglePrecision toFloat]⟩

/-- The getter `vtkPoints::GetNumberOfPoints`. -/
def vtkPoints.GetNumberOfPoints {F : Type} (points : vtkPoints F) : Nat := points.Data.length

/-- The getter `vtkPoints::GetPoint( i )`: the stored point read back in double
precision, `none` outside the collection. -/
def vtkPoints.GetPoint {F : Type} (points : vtkPoints F) (i : Nat) : Option (Point F) :=
  points.Data.get? i

/-- A `vtkMRMLMarkupsFiducialNode`, as far as this module reads and writes it:
the positions of its fiducials, in list order. -/
structure vtkMRMLMarkupsFiducialNode (F : Type) where
  Fiducials : List (Point F)
  deriving DecidableEq, Repr

/-- The getter `vtkMRMLMarkupsFiducialNode::GetNumberOfFiducials`. -/
def vtkMRMLMarkupsFiducialNode.GetNumberOfFiducials {F : Type}
    (node : vtkMRMLMarkupsFiducialNode F) : Nat :=
  node.Fiducials.length

/-- The getter `vtkMRMLMarkupsFiducialNode::GetNthFiducialPosition( n, pos )`:
the value of `pos` after the call.  The position of fiducial `n` is written to
it; outside the list MRML writes zeros. -/
def vtkMRMLMarkupsFiducialNode.GetNthFiducialPosition {F : Type} [Zero F]
    (node : vtkMRMLMarkupsFiducialNode F) (n : Nat) (_pos : Point F) : Point F :=
  match node.Fiducials.get? n with
  | some p => p
  | none => ⟨0, 0, 0⟩

/-- The method `vtkMRMLMarkupsFiducialNode::AddFiducialFromArray( pos )`: a new
fiducial at `pos` is put at the end of the list. -/
def vtkMRMLMarkupsFiducialNode.AddFiducialFromArray {F : Type}
    (node : vtkMRMLMarkupsFiducialNode F) (pos : Point F) : vtkMRMLMarkupsFiducialNode F :=
  ⟨node.Fiducials ++ [pos]⟩

/-- A `vtkMRMLLinearTransformNode`, as far as this module writes it: its
transform-to-parent matrix. -/
structure vtkMRMLLinearTransformNode (F : Type) where
  MatrixTransformToParent : vtkMatrix4x4 F

/-- The method `vtkMRMLLinearTransformNode::SetAndObserveMatrixTransformToParent`. -/
def vtkMRMLLinearTransformNode.SetAndObserveMatrixTransformToParent {F : Type}
    (node : vtkMRMLLinearTransformNode F) (matrix : vtkMatrix4x4 F) :
    vtkMRMLLinearTransformNode F :=
  { node with MatrixTransformToParent := matrix }

/-- The two modes of a `vtkLandmarkTransform` this module selects
(`SetModeToRigidBody`, `SetModeToSimilarity`). -/
inductive LandmarkMode where
  | RigidBody
  | Similarity
  deriving DecidableEq, Repr

/-- A `vtkLandmarkTransform`: its two landmark sets (`NULL` until set), its mode
and its matrix. -/
structure vtkLandmarkTransform (F : Type) where
  SourceLandmarks : Option (vtkPoints F)
  TargetLandmarks : Option (vtkPoints F)
  Mode : LandmarkMode
  Matrix : vtkMatrix4x4 F

/-- The constructor `vtkLandmarkTransform::New()`: no landmarks, similarity mode,
identity matrix. -/
def vtkLandmarkTransform.New {F : Type} [Zero F] [One F] : vtkLandmarkTransform F :=
  { SourceLandmarks := none, TargetLandmarks := none,
    Mode := LandmarkMode.Similarity, Matrix := vtkMatrix4x4.Identity }

/-- The setter `vtkLandmarkTransform::SetSourceLandmarks`. -/
def vtkLandmarkTransform.SetSourceLandmarks {F : Type} (t : vtkLandmarkTransform F)
    (points : vtkPoints F) : vtkLandmarkTransform F :=
  { t with SourceLandmarks := some points }

/-- The setter `vtkLandmarkTransform::SetTargetLandmarks`. -/
def vtkLandmarkTransform.SetTargetLandmarks {F : Type} (t : vtkLandmarkTransform F)
    (points : vtkPoints F) : vtkLandmarkTransform F :=
  { t with TargetLandmarks := some points }

/-- The setter `vtkLandmarkTransform::SetModeToSimilarity`. -/
def vtkLandmarkTransform.SetModeToSimilarity {F : Type} (t : vtkLandmarkTransform F) :
    vtkLandmarkTransform F :=
  { t with Mode := LandmarkMode.Similarity }

/-- The setter `vtkLandmarkTransform::SetModeToRigidBody`. -/
def vtkLandmarkTransform.SetModeToRigidBody {F : Type} (t : vtkLandmarkTransform F) :
    vtkLandmarkTransform F :=
  { t with Mode := LandmarkMode.RigidBody }

/-- One run of the landmark solver: the mode and the two landmark sets it ran on. -/
structure Registration (F : Type) where
  Mode : LandmarkMode
  Source : vtkPoints F
  Target : vtkPoints F
  deriving DecidableEq, Repr

/-- The method `vtkLandmarkTransform::Update`.  With both landmark sets present
the solver `registration` runs on them in the current mode and its result becomes
the matrix, and the run is appended to the log `runs`; with a set missing the
matrix becomes the identity and the solver does not run. -/
def vtkLandmarkTransform.Update {F : Type} [Zero F] [One F]
    (registration : LandmarkMode → vtkPoints F → vtkPoints F → vtkMatrix4x4 F)
    (t : vtkLandmarkTransform F) (runs : List (Registration F)) :
    vtkLandmarkTransform F × List (Registration F) :=
  match t.SourceLandmarks, t.TargetLandmarks with
  | some source, some target =>
    ({ t with Matrix := registration t.Mode source target },
      runs ++ [{ Mode := t.Mode, Source := source, Target := target }])
  | _, _ => ({ t with Matrix := vtkMatrix4x4.Identity }, runs)

/-- The getter `vtkLandmarkTransform::GetMatrix( m )`: the value of `m` after the
call, a copy of the transform's matrix. -/
def vtkLandmarkTransform.GetMatrix {F : Type} (t : vtkLandmarkTransform F)
    (_m : vtkMatrix4x4 F) : vtkMatrix4x4 F :=
  t.Matrix

/-- The result of `std::string::compare`: zero exactly when the two strings are
equal, negative or positive by their order otherwise. -/
def string_compare (s t : String) : Int :=
  if s = t then 0 else if s < t then -1 else 1

/-! ## Helper methods -/

/-- The loop of `MarkupsFiducialNodeToVTKPoints`,
`for ( int i = 0; i < n; i++ )`, from the counter value `i` on.  The counter is
incremented only while it is below the count, itself an `int`, so the increment
never leaves the range of `int` and `Nat` arithmetic is exact. -/
def MarkupsFiducialNodeToVTKPoints.loop {F : Type} [Zero F] (toFloat : F → F)
    (markupsFiducialNode : vtkMRMLMarkupsFiducialNode F) (i : Nat) (points : vtkPoints F) :
    vtkPoints F :=
  if i < markupsFiducialNode.GetNumberOfFiducials then
    let currentFiducial : Point F := ⟨0, 0, 0⟩
    let currentFiducial := markupsFiducialNode.GetNthFiducialPosition i currentFiducial
    MarkupsFiducialNodeToVTKPoints.loop toFloat markupsFiducialNode (i + 1)
      (points.InsertNextPoint toFloat currentFiducial)
  else
    points
termination_by markupsFiducialNode.GetNumberOfFiducials - i

/-- The helper `MarkupsFiducialNodeToVTKPoints`. -/
def MarkupsFiducialNodeToVTKPoints {F : Type} [Zero F] (toFloat : F → F)
    (markupsFiducialNode : vtkMRMLMarkupsFiducialNode F) : vtkPoints F :=
  let points := vtkPoints.New
  MarkupsFiducialNodeToVTKPoints.loop toFloat markupsFiducialNode 0 points

/-! ## Module-specific methods -/

/-- A node of the scene, by class: a fiducial list, a linear transform, or a
node of any other class. -/
inductive vtkMRMLNode (F : Type) where
  | MarkupsFiducialNode (node : vtkMRMLMarkupsFiducialNode F)
  | LinearTransformNode (node : vtkMRMLLinearTransformNode F)
  | OtherNode

/-- A `vtkMRMLScene`: its nodes, each under its ID. -/
structure vtkMRMLScene (F : Type) where
  Nodes : List (String × vtkMRMLNode F)

/-- The lookup `vtkMRMLScene::GetNodeByID`: the first node under the ID, `NULL`
when there is none. -/
def vtkMRMLScene.GetNodeByID {F : Type} (scene : vtkMRMLScene F) (id : String) :
    Option (vtkMRMLNode F) :=
  match scene.Nodes.find? (fun entry => entry.1 == id) with
  | some entry => some entry.2
  | none => none

/-- The cast `vtkMRMLMarkupsFiducialNode::SafeDownCast`: `NULL` for `NULL` and
for a node of another class. -/
def vtkMRMLMarkupsFiducialNode.SafeDownCast {F : Type} :
    Option (vtkMRMLNode F) → Option (vtkMRMLMarkupsFiducialNode F)
  | some (vtkMRMLNode.MarkupsFiducialNode node) => some node
  | _ => none

/-- A write through the pointer `GetNodeByID` returned: the first node under the
ID is replaced, every other entry of the scene stays. -/
def vtkMRMLScene.StoreNode {F : Type} :
    List (String × vtkMRMLNode F) → String → vtkMRMLNode F → List (String × vtkMRMLNode F)
  | [], _, _ => []
  | entry :: rest, id, node =>
    if entry.1 == id then (entry.1, node) :: rest
    else entry :: vtkMRMLScene.StoreNode rest id node

/-- The `vtkSlicerMarkupsLogic` this module holds, as far as it is read: the ID
`GetActiveListID` returns. -/
structure vtkSlicerMarkupsLogic where
  ActiveListID : String

/-- The logic object (`this`): the scene `GetMRMLScene()` returns and the member
`MarkupsLogic`, either of which may be `NULL`. -/
structure vtkSlicerFiducialRegistrationWizardLogic (F : Type) where
  MRMLScene : Option (vtkMRMLScene F)
  MarkupsLogic : Option vtkSlicerMarkupsLogic

/-- The method `vtkSlicerFiducialRegistrationWizardLogic::AddFiducial`: the logic
object, with its scene, after the call.  The result is `none` when the call
dereferences a `NULL` scene or a `NULL` markups logic. -/
def AddFiducial {F : Type}
    (GetMatrixTransformToWorld : vtkMRMLLinearTransformNode F → vtkMatrix4x4 F)
    (this : vtkSlicerFiducialRegistrationWizardLogic F)
    (probeTransformNode : Option (vtkMRMLLinearTransformNode F)) :
    Option (vtkSlicerFiducialRegistrationWizardLogic F) :=
  match probeTransformNode with
  | none => some this
  | some probe =>
    match this.MRMLScene, this.MarkupsLogic with
    | some scene, some markupsLogic =>
      let activeListID := markupsLogic.ActiveListID
      match vtkMRMLMarkupsFiducialNode.SafeDownCast (scene.GetNodeByID activeListID) with
      | none => some this
      | some activeMarkupsFiducialNode =>
        let transformToWorld := GetMatrixTransformToWorld probe
        let coord : Point F :=
          ⟨transformToWorld.GetElement 0 3, transformToWorld.GetElement 1 3,
            transformToWorld.GetElement 2 3⟩
        let activeMarkupsFiducialNode := activeMarkupsFiducialNode.AddFiducialFromArray coord
        some { this with
          MRMLScene := some ⟨vtkMRMLScene.StoreNode scene.Nodes activeListID
            (vtkMRMLNode.MarkupsFiducialNode activeMarkupsFiducialNode)⟩ }
    | _, _ => none

/-- The objects a call of `CalculateTransform` can reach: the nodes behind its
three pointer arguments (`none` for a `NULL` argument), and the log of the
landmark solver's runs so far. -/
structure CallState (F : Type) where
  fromMarkupsFiducialNode : Option (vtkMRMLMarkupsFiducialNode F)
  toMarkupsFiducialNode : Option (vtkMRMLMarkupsFiducialNode F)
  outputTransform : Option (vtkMRMLLinearTransformNode F)
  Runs : List (Registration F)

/-- The method `vtkSlicerFiducialRegistrationWizardLogic::CalculateTransform`:
the returned status string and the state after the call. -/
def CalculateTransform {F : Type} [Zero F] [One F] (toFloat : F → F)
    (registration : LandmarkMode → vtkPoints F → vtkPoints F → vtkMatrix4x4 F)
    (s : CallState F) (transformType : String) : String × CallState F :=
  match s.fromMarkupsFiducialNode, s.toMarkupsFiducialNode with
  | some fromMarkupsFiducialNode, some toMarkupsFiducialNode =>
    match s.outputTransform with
    | none => ("Output transform is not defined.", s)
    | some outputTransform =>
      if fromMarkupsFiducialNode.GetNumberOfFiducials < 3
          ∨ toMarkupsFiducialNode.GetNumberOfFiducials < 3 then
        ("One or more fiducial lists has too few fiducials.", s)
      else if fromMarkupsFiducialNode.GetNumberOfFiducials
          ≠ toMarkupsFiducialNode.GetNumberOfFiducials then
        ("Fiducial lists have unequal number of fiducials.", s)
      else
        let fromPoints := MarkupsFiducialNodeToVTKPoints toFloat fromMarkupsFiducialNode
        let toPoints := MarkupsFiducialNodeToVTKPoints toFloat toMarkupsFiducialNode
        let transform : vtkLandmarkTransform F := vtkLandmarkTransform.New
        let transform := transform.SetSourceLandmarks fromPoints
        let transform := transform.SetTargetLandmarks toPoints
        let transform :=
          if string_compare transformType "Similarity" = 0 then transform.SetModeToSimilarity
          else transform.SetModeToRigidBody
        let updated := transform.Update registration s.Runs
        let transform := updated.1
        let calculatedTransform : vtkMatrix4x4 F := vtkMatrix4x4.Identity
        let calculatedTransform := transform.GetMatrix calculatedTransform
        let outputTransform :=
          outputTransform.SetAndObserveMatrixTransformToParent calculatedTransform
        ("Success.", { s with outputTransform := some outputTransform, Runs := updated.2 })
  | _, _ => ("One or more fiducial lists not defined.", s)

/-! ## Concrete inputs -/

/-- The number of binary digits to drop from the magnitude `m` to leave at most
the 24 significant bits of single precision; `fuel` bounds the halvings, and
`m` itself is enough. -/
def binadeShift : Nat → Nat → Nat
  | 0, _ => 0
  | fuel + 1, m => if m < 2 ^ 24 then 0 else binadeShift fuel (m / 2) + 1

/-- The magnitude `m` rounded to 24 significant bits, to nearest, ties to the even
significand. -/
def roundToSingle (m : Nat) : Nat :=
  let k := binadeShift m m
  let q := m / 2 ^ k
  let r := m % 2 ^ k
  if 2 * r < 2 ^ k then q * 2 ^ k
  else if 2 * r = 2 ^ k ∧ q % 2 = 0 then q * 2 ^ k
  else (q + 1) * 2 ^ k

/-- The conversion `double` to `float` and back on the doubles that are whole
numbers, below the magnitude `2 ^ 128` where single precision ends: exact up to
`2 ^ 24`, rounded to 24 significant bits above. -/
def toFloatInt (x : Int) : Int :=
  if x < 0 then -(roundToSingle x.natAbs : Int) else (roundToSingle x.natAbs : Int)

/-- A stand-in solver for concrete runs: the map that takes the first source
landmark to the first target landmark, with scale 1 in rigid-body mode and
scale 2 in similarity mode; the identity without landmarks. -/
def sampleRegistration (mode : LandmarkMode) (source target : vtkPoints Int) :
    vtkMatrix4x4 Int :=
  let scale : Int :=
    match mode with
    | LandmarkMode.RigidBody => 1
    | LandmarkMode.Similarity => 2
  match source.Data, target.Data with
  | p :: _, q :: _ =>
    ![![scale, 0, 0, q.x - scale * p.x], ![0, scale, 0, q.y - scale * p.y],
      ![0, 0, scale, q.z - scale * p.z], ![0, 0, 0, 1]]
  | _, _ => vtkMatrix4x4.Identity

/-- Three fiducials. -/
def threeFiducials : vtkMRMLMarkupsFiducialNode Int :=
  ⟨[⟨0, 0, 0⟩, ⟨1, 0, 0⟩, ⟨0, 1, 0⟩]⟩

/-- A transform node holding the identity. -/
def identityNode : vtkMRMLLinearTransformNode Int := ⟨vtkMatrix4x4.Identity⟩

/-- Two fiducials. -/
def twoFiducials : vtkMRMLMarkupsFiducialNode Int :=
  ⟨[⟨5, 5, 5⟩, ⟨6, 5, 5⟩]⟩

/-- Three fiducials: those of `threeFiducials`, moved by `(10, 20, 30)`. -/
def movedFiducials : vtkMRMLMarkupsFiducialNode Int :=
  ⟨[⟨10, 20, 30⟩, ⟨11, 20, 30⟩, ⟨10, 21, 30⟩]⟩

/-- Four fiducials. -/
def fourFiducials : vtkMRMLMarkupsFiducialNode Int :=
  ⟨[⟨0, 0, 0⟩, ⟨1, 0, 0⟩, ⟨0, 1, 0⟩, ⟨0, 0, 1⟩]⟩

/-- Three fiducials far from the origin: the first coordinate of the first one,
`2 ^ 24 + 1`, is a `double` that single precision cannot hold. -/
def farFiducials : vtkMRMLMarkupsFiducialNode Int :=
  ⟨[⟨16777217, 0, 0⟩, ⟨16777218, 0, 0⟩, ⟨16777216, 1, 0⟩]⟩

/-- A probe pose: a quarter turn about the third axis, then a move by
`(10, 20, 30)`. -/
def probeNode : vtkMRMLLinearTransformNode Int :=
  ⟨![![0, -1, 0, 10], ![1, 0, 0, 20], ![0, 0, 1, 30], ![0, 0, 0, 1]]⟩

/-- The transform-to-world of a node that has no parent transform: its
transform-to-parent. -/
def topLevelToWorld (node : vtkMRMLLinearTransformNode Int) : vtkMatrix4x4 Int :=
  node.MatrixTransformToParent

/-- A scene: a transform, the fiducial list "F", a node of another class and a
second fiducial list "G". -/
def sampleScene : vtkMRMLScene Int :=
  ⟨[("T", vtkMRMLNode.LinearTransformNode identityNode),
    ("F", vtkMRMLNode.MarkupsFiducialNode twoFiducials),
    ("V", vtkMRMLNode.OtherNode),
    ("G", vtkMRMLNode.MarkupsFiducialNode threeFiducials)]⟩

/-- A logic object on `sampleScene` whose active list is "F". -/
def sampleLogic : vtkSlicerFiducialRegistrationWizardLogic Int :=
  ⟨some sampleScene, some ⟨"F"⟩⟩

/-! ## Lemmas -/

/-- The loop entered at counter `i` appends the fiducials from index `i` on. -/
theorem MarkupsFiducialNodeToVTKPoints.loop_eq {F : Type} [Zero F] (toFloat : F → F)
    (markupsFiducialNode : vtkMRMLMarkupsFiducialNode F) (k i : Nat) (points : vtkPoints F)
    (hk : i + k = markupsFiducialNode.Fiducials.length) :
    MarkupsFiducialNodeToVTKPoints.loop toFloat markupsFiducialNode i points
      = ⟨points.Data ++ (markupsFiducialNode.Fiducials.drop i).map
          (Point.toSinglePrecision toFloat)⟩ := by
  induction k generalizing i points with
  | zero =>
    have hi : i = markupsFiducialNode.Fiducials.length := by omega
    rw [MarkupsFiducialNodeToVTKPoints.loop]
    simp [vtkMRMLMarkupsFiducialNode.GetNumberOfFiducials, hi]
  | succ k ih =>
    have hi : i < markupsFiducialNode.Fiducials.length := by omega
    rw [MarkupsFiducialNodeToVTKPoints.loop]
    simp only [vtkMRMLMarkupsFiducialNode.GetNumberOfFiducials, hi, if_true]
    rw [ih (i + 1) _ (by omega)]
    simp only [vtkPoints.InsertNextPoint, vtkMRMLMarkupsFiducialNode.GetNthFiducialPosition,
      List.get?_eq_getElem?, List.getElem?_eq_getElem hi, List.append_assoc,
      List.singleton_append]
    rw [List.drop_eq_getElem_cons hi, List.map_cons]

/-- The helper returns the fiducial positions in list order, each converted to the
single-precision storage. -/
theorem MarkupsFiducialNodeToVTKPoints_eq {F : Type} [Zero F] (toFloat : F → F)
    (markupsFiducialNode : vtkMRMLMarkupsFiducialNode F) :
    MarkupsFiducialNodeToVTKPoints toFloat markupsFiducialNode
      = ⟨markupsFiducialNode.Fiducials.map (Point.toSinglePrecision toFloat)⟩ := by
  unfold MarkupsFiducialNodeToVTKPoints
  rw [MarkupsFiducialNodeToVTKPoints.loop_eq toFloat markupsFiducialNode
    markupsFiducialNode.Fiducials.length 0 vtkPoints.New (by omega)]
  simp [vtkPoints.New]

/-- A list of positions that single precision holds exactly is not changed by the
conversion. -/
theorem map_toSinglePrecision_of_exact {F : Type} (toFloat : F → F)
    (positions : List (Point F))
    (h : ∀ p, p ∈ positions → toFloat p.x = p.x ∧ toFloat p.y = p.y ∧ toFloat p.z = p.z) :
    positions.map (Point.toSinglePrecision toFloat) = positions := by
  induction positions with
  | nil => rfl
  | cons p rest ih =>
    have hp := h p (List.mem_cons_self p rest)
    rw [List.map_cons, ih (fun q hq => h q (List.mem_cons_of_mem p hq))]
    simp [Point.toSinglePrecision, hp.1, hp.2.1, hp.2.2]

/-- The comparison `string_compare` gives zero exactly on equal strings. -/
theorem string_compare_eq_zero (s t : String) : string_compare s t = 0 ↔ s = t := by
  unfold string_compare
  by_cases h : s = t
  · simp [h]
  · simp only [h, if_false, iff_false]
    split <;> decide

/-- The mode `CalculateTransform` selects for a transform type string. -/
theorem CalculateTransform.mode_eq {F : Type} (transformType : String)
    (transform : vtkLandmarkTransform F) :
    (if string_compare transformType "Similarity" = 0 then transform.SetModeToSimilarity
      else transform.SetModeToRigidBody)
      = { transform with Mode :=
            if transformType = "Similarity" then LandmarkMode.Similarity
            else LandmarkMode.RigidBody } := by
  by_cases h : transformType = "Similarity"
  · simp [h, string_compare, vtkLandmarkTransform.SetModeToSimilarity]
  · have h0 : ¬ string_compare transformType "Similarity" = 0 := by
      rw [string_compare_eq_zero]; exact h
    simp [h, h0, vtkLandmarkTransform.SetModeToRigidBody]

/-- First branch: a `NULL` fiducial list. -/
theorem CalculateTransform.of_null {F : Type} [Zero F] [One F] (toFloat : F → F)
    (registration : LandmarkMode → vtkPoints F → vtkPoints F → vtkMatrix4x4 F)
    (s : CallState F) (transformType : String)
    (h : s.fromMarkupsFiducialNode = none ∨ s.toMarkupsFiducialNode = none) :
    CalculateTransform toFloat registration s transformType
      = ("One or more fiducial lists not defined.", s) := by
  unfold CalculateTransform
  rcases h with h | h
  · rw [h]
  · rw [h]
    cases s.fromMarkupsFiducialNode <;> rfl

/-- Second branch: a `NULL` output transform. -/
theorem CalculateTransform.of_no_output {F : Type} [Zero F] [One F] (toFloat : F → F)
    (registration : LandmarkMode → vtkPoints F → vtkPoints F → vtkMatrix4x4 F)
    (s : CallState F) (transformType : String)
    (fromNode toNode : vtkMRMLMarkupsFiducialNode F)
    (hf : s.fromMarkupsFiducialNode = some fromNode)
    (ht : s.toMarkupsFiducialNode = some toNode)
    (ho : s.outputTransform = none) :
    CalculateTransform toFloat registration s transformType
      = ("Output transform is not defined.", s) := by
  unfold CalculateTransform
  simp only [hf, ht, ho]

/-- Third branch: a list with fewer than three fiducials. -/
theorem CalculateTransform.of_too_few {F : Type} [Zero F] [One F] (toFloat : F → F)
    (registration : LandmarkMode → vtkPoints F → vtkPoints F → vtkMatrix4x4 F)
    (s : CallState F) (transformType : String)
    (fromNode toNode : vtkMRMLMarkupsFiducialNode F) (output : vtkMRMLLinearTransformNode F)
    (hf : s.fromMarkupsFiducialNode = some fromNode)
    (ht : s.toMarkupsFiducialNode = some toNode)
    (ho : s.outputTransform = some output)
    (h : fromNode.GetNumberOfFiducials < 3 ∨ toNode.GetNumberOfFiducials < 3) :
    CalculateTransform toFloat registration s transformType
      = ("One or more fiducial lists has too few fiducials.", s) := by
  unfold CalculateTransform
  simp only [hf, ht, ho, h, if_true]

/-- Fourth branch: two lists of three or more fiducials, of different lengths. -/
theorem CalculateTransform.of_unequal {F : Type} [Zero F] [One F] (toFloat : F → F)
    (registration : LandmarkMode → vtkPoints F → vtkPoints F → vtkMatrix4x4 F)
    (s : CallState F) (transformType : String)
    (fromNode toNode : vtkMRMLMarkupsFiducialNode F) (output : vtkMRMLLinearTransformNode F)
    (hf : s.fromMarkupsFiducialNode = some fromNode)
    (ht : s.toMarkupsFiducialNode = some toNode)
    (ho : s.outputTransform = some output)
    (h3 : ¬ (fromNode.GetNumberOfFiducials < 3 ∨ toNode.GetNumberOfFiducials < 3))
    (hne : fromNode.GetNumberOfFiducials ≠ toNode.GetNumberOfFiducials) :
    CalculateTransform toFloat registration s transformType
      = ("Fiducial lists have unequal number of fiducials.", s) := by
  unfold CalculateTransform
  simp only [hf, ht, ho, h3, hne, if_false, if_true, ne_eq, not_false_eq_true]

/-- Last branch: two lists of the same length, three or more. -/
theorem CalculateTransform.of_valid {F : Type} [Zero F] [One F] (toFloat : F → F)
    (registration : LandmarkMode → vtkPoints F → vtkPoints F → vtkMatrix4x4 F)
    (s : CallState F) (transformType : String)
    (fromNode toNode : vtkMRMLMarkupsFiducialNode F) (output : vtkMRMLLinearTransformNode F)
    (hf : s.fromMarkupsFiducialNode = some fromNode)
    (ht : s.toMarkupsFiducialNode = some toNode)
    (ho : s.outputTransform = some output)
    (h3 : ¬ (fromNode.GetNumberOfFiducials < 3 ∨ toNode.GetNumberOfFiducials < 3))
    (heq : fromNode.GetNumberOfFiducials = toNode.GetNumberOfFiducials) :
    CalculateTransform toFloat registration s transformType
      = ("Success.",
          { s with
            outputTransform := some (output.SetAndObserveMatrixTransformToParent
              (registration
                (if transformType = "Similarity" then LandmarkMode.Similarity
                  else LandmarkMode.RigidBody)
                ⟨fromNode.Fiducials.map (Point.toSinglePrecision toFloat)⟩
                ⟨toNode.Fiducials.map (Point.toSinglePrecision toFloat)⟩)),
            Runs := s.Runs ++
              [{ Mode := if transformType = "Similarity" then LandmarkMode.Similarity
                    else LandmarkMode.RigidBody,
                 Source := ⟨fromNode.Fiducials.map (Point.toSinglePrecision toFloat)⟩,
                 Target := ⟨toNode.Fiducials.map (Point.toSinglePrecision toFloat)⟩ }] }) := by
  unfold CalculateTransform
  simp only [hf, ht, ho]
  rw [if_neg h3, if_neg (not_not.mpr heq)]
  simp only [CalculateTransform.mode_eq, MarkupsFiducialNodeToVTKPoints_eq]
  rfl

/-- After a write under an ID the scene has, the lookup of that ID gives the node
written. -/
theorem vtkMRMLScene.GetNodeByID_StoreNode {F : Type}
    (nodes : List (String × vtkMRMLNode F)) (id : String) (old node : vtkMRMLNode F)
    (h : vtkMRMLScene.GetNodeByID ⟨nodes⟩ id = some old) :
    vtkMRMLScene.GetNodeByID ⟨vtkMRMLScene.StoreNode nodes id node⟩ id = some node := by
  induction nodes with
  | nil => simp [vtkMRMLScene.GetNodeByID] at h
  | cons entry rest ih =>
    by_cases he : entry.1 = id
    · simp [vtkMRMLScene.GetNodeByID, vtkMRMLScene.StoreNode, he]
    · have hrest : vtkMRMLScene.GetNodeByID ⟨rest⟩ id = some old := by
        simpa [vtkMRMLScene.GetNodeByID, List.find?_cons, he] using h
      have := ih hrest
      simpa [vtkMRMLScene.GetNodeByID, vtkMRMLScene.StoreNode, List.find?_cons, he]
        using this

/-- A write under one ID leaves the lookup of every other ID as it was. -/
theorem vtkMRMLScene.GetNodeByID_StoreNode_of_ne {F : Type}
    (nodes : List (String × vtkMRMLNode F)) (id other : String) (node : vtkMRMLNode F)
    (h : other ≠ id) :
    vtkMRMLScene.GetNodeByID ⟨vtkMRMLScene.StoreNode nodes id node⟩ other
      = vtkMRMLScene.GetNodeByID ⟨nodes⟩ other := by
  induction nodes with
  | nil => rfl
  | cons entry rest ih =>
    by_cases he : entry.1 = id
    · have hne : ¬ entry.1 = other := fun h1 => h (h1.symm.trans he)
      have hne2 : ¬ id = other := fun h1 => h h1.symm
      simp [vtkMRMLScene.GetNodeByID, vtkMRMLScene.StoreNode, he, List.find?_cons, hne2]
    · by_cases ho : entry.1 = other
      · simp [vtkMRMLScene.GetNodeByID, vtkMRMLScene.StoreNode, List.find?_cons, ho, h]
      · simpa [vtkMRMLScene.GetNodeByID, vtkMRMLScene.StoreNode, he, List.find?_cons, ho]
          using ih

/-- The result of `AddFiducial` on a non-null probe when the active list ID
resolves to a fiducial list. -/
theorem AddFiducial.of_active_list {F : Type}
    (GetMatrixTransformToWorld : vtkMRMLLinearTransformNode F → vtkMatrix4x4 F)
    (this : vtkSlicerFiducialRegistrationWizardLogic F)
    (probe : vtkMRMLLinearTransformNode F)
    (scene : vtkMRMLScene F) (markupsLogic : vtkSlicerMarkupsLogic)
    (list : vtkMRMLMarkupsFiducialNode F)
    (hscene : this.MRMLScene = some scene)
    (hlogic : this.MarkupsLogic = some markupsLogic)
    (hlist : scene.GetNodeByID markupsLogic.ActiveListID
      = some (vtkMRMLNode.MarkupsFiducialNode list)) :
    AddFiducial GetMatrixTransformToWorld this (some probe)
      = some { this with
          MRMLScene := some ⟨vtkMRMLScene.StoreNode scene.Nodes markupsLogic.ActiveListID
            (vtkMRMLNode.MarkupsFiducialNode
              ⟨list.Fiducials ++
                [⟨GetMatrixTransformToWorld probe 0 3, GetMatrixTransformToWorld probe 1 3,
                  GetMatrixTransformToWorld probe 2 3⟩]⟩)⟩ } := by
  unfold AddFiducial
  simp only [hscene, hlogic, hlist, vtkMRMLMarkupsFiducialNode.SafeDownCast,
    vtkMRMLMarkupsFiducialNode.AddFiducialFromArray, vtkMatrix4x4.GetElement]

/-! ## Theorems -/

/-- C1: the status of `CalculateTransform` is "Success." exactly when both
fiducial lists are non-null, the output transform is non-null, both lists have at
least three fiducials and the two lists have the same number of fiducials; in
every other case the status is one of the four error strings, and is not
"Success.". -/
theorem C1_success_iff_valid {F : Type} [Zero F] [One F] (toFloat : F → F)
    (registration : LandmarkMode → vtkPoints F → vtkPoints F → vtkMatrix4x4 F)
    (s : CallState F) (transformType : String) :
    ((CalculateTransform toFloat registration s transformType).1 = "Success." ↔
      ∃ fromNode toNode output,
        s.fromMarkupsFiducialNode = some fromNode ∧ s.toMarkupsFiducialNode = some toNode ∧
        s.outputTransform = some output ∧
        3 ≤ fromNode.GetNumberOfFiducials ∧ 3 ≤ toNode.GetNumberOfFiducials ∧
        fromNode.GetNumberOfFiducials = toNode.GetNumberOfFiducials) ∧
    ((¬ ∃ fromNode toNode output,
        s.fromMarkupsFiducialNode = some fromNode ∧ s.toMarkupsFiducialNode = some toNode ∧
        s.outputTransform = some output ∧
        3 ≤ fromNode.GetNumberOfFiducials ∧ 3 ≤ toNode.GetNumberOfFiducials ∧
        fromNode.GetNumberOfFiducials = toNode.GetNumberOfFiducials) →
      ((CalculateTransform toFloat registration s transformType).1
          = "One or more fiducial lists not defined." ∨
        (CalculateTransform toFloat registration s transformType).1
          = "Output transform is not defined." ∨
        (CalculateTransform toFloat registration s transformType).1
          = "One or more fiducial lists has too few fiducials." ∨
        (CalculateTransform toFloat registration s transformType).1
          = "Fiducial lists have unequal number of fiducials.") ∧
      (CalculateTransform toFloat registration s transformType).1 ≠ "Success.") := by
  cases hf : s.fromMarkupsFiducialNode with
  | none =>
    rw [CalculateTransform.of_null toFloat registration s transformType (Or.inl hf)]
    simp
  | some fromNode =>
    cases ht : s.toMarkupsFiducialNode with
    | none =>
      rw [CalculateTransform.of_null toFloat registration s transformType (Or.inr ht)]
      simp
    | some toNode =>
      cases ho : s.outputTransform with
      | none =>
        rw [CalculateTransform.of_no_output toFloat registration s transformType fromNode toNode
          hf ht ho]
        simp
      | some output =>
        by_cases h3 : fromNode.GetNumberOfFiducials < 3 ∨ toNode.GetNumberOfFiducials < 3
        · rw [CalculateTransform.of_too_few toFloat registration s transformType fromNode toNode
            output hf ht ho h3]
          simp only [Option.some.injEq, String.reduceEq, false_iff, not_exists, not_and,
            ne_eq, not_false_eq_true, and_true, or_true, true_or, implies_true]
          intro a b c ha hb _ h3a h3b
          subst ha; subst hb
          omega
        · by_cases hne : fromNode.GetNumberOfFiducials = toNode.GetNumberOfFiducials
          · rw [CalculateTransform.of_valid toFloat registration s transformType fromNode toNode
              output hf ht ho h3 hne]
            have hv : ∃ a b c, some fromNode = some a ∧ some toNode = some b ∧
                some output = some c ∧ 3 ≤ a.GetNumberOfFiducials ∧
                3 ≤ b.GetNumberOfFiducials ∧
                a.GetNumberOfFiducials = b.GetNumberOfFiducials :=
              ⟨fromNode, toNode, output, rfl, rfl, rfl, by omega, by omega, hne⟩
            exact ⟨⟨fun _ => hv, fun _ => rfl⟩, fun hn => absurd hv hn⟩
          · rw [CalculateTransform.of_unequal toFloat registration s transformType fromNode toNode
              output hf ht ho h3 hne]
            simp only [Option.some.injEq, String.reduceEq, false_iff, not_exists, not_and,
              ne_eq, not_false_eq_true, and_true, or_true, true_or, implies_true]
            intro a b c ha hb _ _ _
            subst ha; subst hb
            exact hne

/-- C2: with both fiducial lists and the output transform non-null, a list with
fewer than three fiducials gives the status "One or more fiducial lists has too
few fiducials.", whether the two counts are equal or not: the status is then
never the one of the unequal-count check. -/
theorem C2_too_few_first {F : Type} [Zero F] [One F] (toFloat : F → F)
    (registration : LandmarkMode → vtkPoints F → vtkPoints F → vtkMatrix4x4 F)
    (s : CallState F) (transformType : String)
    (fromNode toNode : vtkMRMLMarkupsFiducialNode F) (output : vtkMRMLLinearTransformNode F)
    (hf : s.fromMarkupsFiducialNode = some fromNode)
    (ht : s.toMarkupsFiducialNode = some toNode)
    (ho : s.outputTransform = some output)
    (h : fromNode.GetNumberOfFiducials < 3 ∨ toNode.GetNumberOfFiducials < 3) :
    (CalculateTransform toFloat registration s transformType).1
        = "One or more fiducial lists has too few fiducials." ∧
    (CalculateTransform toFloat registration s transformType).1
        ≠ "Fiducial lists have unequal number of fiducials." := by
  rw [CalculateTransform.of_too_few toFloat registration s transformType fromNode toNode output
    hf ht ho h]
  refine ⟨rfl, ?_⟩
  show "One or more fiducial lists has too few fiducials."
    ≠ "Fiducial lists have unequal number of fiducials."
  decide

/-- C3: with both fiducial lists and the output transform non-null, two lists of
at least three fiducials each and of different counts give the status "Fiducial
lists have unequal number of fiducials."; no transform is computed: the solver
does not run and the state, the output node included, is as before the call. -/
theorem C3_unequal_counts {F : Type} [Zero F] [One F] (toFloat : F → F)
    (registration : LandmarkMode → vtkPoints F → vtkPoints F → vtkMatrix4x4 F)
    (s : CallState F) (transformType : String)
    (fromNode toNode : vtkMRMLMarkupsFiducialNode F) (output : vtkMRMLLinearTransformNode F)
    (hf : s.fromMarkupsFiducialNode = some fromNode)
    (ht : s.toMarkupsFiducialNode = some toNode)
    (ho : s.outputTransform = some output)
    (hfrom : 3 ≤ fromNode.GetNumberOfFiducials)
    (hto : 3 ≤ toNode.GetNumberOfFiducials)
    (hne : fromNode.GetNumberOfFiducials ≠ toNode.GetNumberOfFiducials) :
    (CalculateTransform toFloat registration s transformType).1
        = "Fiducial lists have unequal number of fiducials." ∧
    (CalculateTransform toFloat registration s transformType).2.Runs = s.Runs ∧
    (CalculateTransform toFloat registration s transformType).2.outputTransform = some output ∧
    (CalculateTransform toFloat registration s transformType).2 = s := by
  rw [CalculateTransform.of_unequal toFloat registration s transformType fromNode toNode output
    hf ht ho (by omega) hne]
  exact ⟨rfl, rfl, ho, rfl⟩

/-- C4, as the code has it: a null fiducial list gives the status "One or more
fiducial lists not defined."; an empty list that is not null never gives that
status: with both lists non-null and one of them empty the status is "Output
transform is not defined." when the output transform is null and "One or more
fiducial lists has too few fiducials." otherwise. -/
theorem C4_null_list_missing_empty_list_too_few {F : Type} [Zero F] [One F] (toFloat : F → F)
    (registration : LandmarkMode → vtkPoints F → vtkPoints F → vtkMatrix4x4 F)
    (s : CallState F) (transformType : String) :
    ((s.fromMarkupsFiducialNode = none ∨ s.toMarkupsFiducialNode = none) →
      (CalculateTransform toFloat registration s transformType).1
        = "One or more fiducial lists not defined.") ∧
    (∀ fromNode toNode,
      s.fromMarkupsFiducialNode = some fromNode → s.toMarkupsFiducialNode = some toNode →
      (fromNode.GetNumberOfFiducials = 0 ∨ toNode.GetNumberOfFiducials = 0) →
      (CalculateTransform toFloat registration s transformType).1
          ≠ "One or more fiducial lists not defined." ∧
      (s.outputTransform = none →
        (CalculateTransform toFloat registration s transformType).1
          = "Output transform is not defined.") ∧
      (∀ output, s.outputTransform = some output →
        (CalculateTransform toFloat registration s transformType).1
          = "One or more fiducial lists has too few fiducials.")) := by
  refine ⟨fun h => ?_, fun fromNode toNode hf ht h0 => ?_⟩
  · rw [CalculateTransform.of_null toFloat registration s transformType h]
  · have h3 : fromNode.GetNumberOfFiducials < 3 ∨ toNode.GetNumberOfFiducials < 3 := by
      omega
    cases ho : s.outputTransform with
    | none =>
      rw [CalculateTransform.of_no_output toFloat registration s transformType fromNode toNode
        hf ht ho]
      simp
    | some output =>
      rw [CalculateTransform.of_too_few toFloat registration s transformType fromNode toNode output
        hf ht ho h3]
      simp

/-- C4 fails as stated: an empty, non-null from list, next to a to list of three
fiducials and a non-null output transform, gives the status "One or more fiducial
lists has too few fiducials.", not "One or more fiducial lists not defined.". -/
theorem C4_empty_list_is_too_few :
    (⟨[]⟩ : vtkMRMLMarkupsFiducialNode Int).GetNumberOfFiducials = 0 ∧
    (CalculateTransform toFloatInt sampleRegistration
        ⟨some ⟨[]⟩, some threeFiducials, some identityNode, []⟩ "RigidBody").1
      = "One or more fiducial lists has too few fiducials." ∧
    (CalculateTransform toFloatInt sampleRegistration
        ⟨some ⟨[]⟩, some threeFiducials, some identityNode, []⟩ "RigidBody").1
      ≠ "One or more fiducial lists not defined." := by
  decide

/-- C5: a call whose status is not "Success." leaves the output transform node,
and so its matrix, as it was, does not run the landmark solver, and leaves the
whole state as it was. -/
theorem C5_failure_changes_nothing {F : Type} [Zero F] [One F] (toFloat : F → F)
    (registration : LandmarkMode → vtkPoints F → vtkPoints F → vtkMatrix4x4 F)
    (s : CallState F) (transformType : String)
    (h : (CalculateTransform toFloat registration s transformType).1 ≠ "Success.") :
    (CalculateTransform toFloat registration s transformType).2.outputTransform = s.outputTransform ∧
    (∀ output, s.outputTransform = some output →
      ∃ after, (CalculateTransform toFloat registration s transformType).2.outputTransform
          = some after ∧
        after.MatrixTransformToParent = output.MatrixTransformToParent) ∧
    (CalculateTransform toFloat registration s transformType).2.Runs = s.Runs ∧
    (CalculateTransform toFloat registration s transformType).2 = s := by
  have key : (CalculateTransform toFloat registration s transformType).2 = s := by
    cases hf : s.fromMarkupsFiducialNode with
    | none => rw [CalculateTransform.of_null toFloat registration s transformType (Or.inl hf)]
    | some fromNode =>
      cases ht : s.toMarkupsFiducialNode with
      | none => rw [CalculateTransform.of_null toFloat registration s transformType (Or.inr ht)]
      | some toNode =>
        cases ho : s.outputTransform with
        | none =>
          rw [CalculateTransform.of_no_output toFloat registration s transformType fromNode toNode
            hf ht ho]
        | some output =>
          by_cases h3 : fromNode.GetNumberOfFiducials < 3 ∨ toNode.GetNumberOfFiducials < 3
          · rw [CalculateTransform.of_too_few toFloat registration s transformType fromNode toNode
              output hf ht ho h3]
          · by_cases hne : fromNode.GetNumberOfFiducials = toNode.GetNumberOfFiducials
            · rw [CalculateTransform.of_valid toFloat registration s transformType fromNode toNode
                output hf ht ho h3 hne] at h
              exact absurd rfl h
            · rw [CalculateTransform.of_unequal toFloat registration s transformType fromNode
                toNode output hf ht ho h3 hne]
  rw [key]
  exact ⟨rfl, fun output ho => ⟨output, ho, rfl⟩, rfl, rfl⟩

/-- C6, as the code has it: after a successful call the output node's
transform-to-parent matrix is what the landmark solver returns on the from
positions and the to positions, both in list order and each coordinate converted
to the single-precision storage of the point collections, in similarity mode when
the transform type is exactly "Similarity" and in rigid-body mode for every other
string; the solver ran once, on those inputs; when single precision holds every
coordinate of both lists exactly, the solver's inputs are the positions
themselves; and the call succeeds with every other transform type as well. -/
theorem C6_success_stores_registration {F : Type} [Zero F] [One F] (toFloat : F → F)
    (registration : LandmarkMode → vtkPoints F → vtkPoints F → vtkMatrix4x4 F)
    (s : CallState F) (transformType : String)
    (h : (CalculateTransform toFloat registration s transformType).1 = "Success.") :
    ∃ fromNode toNode output after,
      s.fromMarkupsFiducialNode = some fromNode ∧ s.toMarkupsFiducialNode = some toNode ∧
      s.outputTransform = some output ∧
      (CalculateTransform toFloat registration s transformType).2.outputTransform
        = some after ∧
      (transformType = "Similarity" →
        after.MatrixTransformToParent
          = registration LandmarkMode.Similarity
              ⟨fromNode.Fiducials.map (Point.toSinglePrecision toFloat)⟩
              ⟨toNode.Fiducials.map (Point.toSinglePrecision toFloat)⟩ ∧
        (CalculateTransform toFloat registration s transformType).2.Runs
          = s.Runs ++ [⟨LandmarkMode.Similarity,
              ⟨fromNode.Fiducials.map (Point.toSinglePrecision toFloat)⟩,
              ⟨toNode.Fiducials.map (Point.toSinglePrecision toFloat)⟩⟩]) ∧
      (transformType ≠ "Similarity" →
        after.MatrixTransformToParent
          = registration LandmarkMode.RigidBody
              ⟨fromNode.Fiducials.map (Point.toSinglePrecision toFloat)⟩
              ⟨toNode.Fiducials.map (Point.toSinglePrecision toFloat)⟩ ∧
        (CalculateTransform toFloat registration s transformType).2.Runs
          = s.Runs ++ [⟨LandmarkMode.RigidBody,
              ⟨fromNode.Fiducials.map (Point.toSinglePrecision toFloat)⟩,
              ⟨toNode.Fiducials.map (Point.toSinglePrecision toFloat)⟩⟩]) ∧
      ((∀ p, p ∈ fromNode.Fiducials ++ toNode.Fiducials →
          toFloat p.x = p.x ∧ toFloat p.y = p.y ∧ toFloat p.z = p.z) →
        after.MatrixTransformToParent
          = registration
              (if transformType = "Similarity" then LandmarkMode.Similarity
                else LandmarkMode.RigidBody)
              ⟨fromNode.Fiducials⟩ ⟨toNode.Fiducials⟩) ∧
      ∀ otherType, (CalculateTransform toFloat registration s otherType).1 = "Success." := by
  cases hf : s.fromMarkupsFiducialNode with
  | none =>
    rw [CalculateTransform.of_null toFloat registration s transformType (Or.inl hf)] at h
    simp at h
  | some fromNode =>
    cases ht : s.toMarkupsFiducialNode with
    | none =>
      rw [CalculateTransform.of_null toFloat registration s transformType (Or.inr ht)] at h
      simp at h
    | some toNode =>
      cases ho : s.outputTransform with
      | none =>
        rw [CalculateTransform.of_no_output toFloat registration s transformType fromNode
          toNode hf ht ho] at h
        simp at h
      | some output =>
        by_cases h3 : fromNode.GetNumberOfFiducials < 3 ∨ toNode.GetNumberOfFiducials < 3
        · rw [CalculateTransform.of_too_few toFloat registration s transformType fromNode
            toNode output hf ht ho h3] at h
          simp at h
        · by_cases hne : fromNode.GetNumberOfFiducials = toNode.GetNumberOfFiducials
          · refine ⟨fromNode, toNode, output,
              output.SetAndObserveMatrixTransformToParent
                (registration
                  (if transformType = "Similarity" then LandmarkMode.Similarity
                    else LandmarkMode.RigidBody)
                  ⟨fromNode.Fiducials.map (Point.toSinglePrecision toFloat)⟩
                  ⟨toNode.Fiducials.map (Point.toSinglePrecision toFloat)⟩),
              rfl, rfl, rfl, ?_, ?_, ?_, ?_, ?_⟩
            · rw [CalculateTransform.of_valid toFloat registration s transformType fromNode
                toNode output hf ht ho h3 hne]
            · intro hsim
              rw [CalculateTransform.of_valid toFloat registration s transformType fromNode
                toNode output hf ht ho h3 hne]
              simp [hsim, vtkMRMLLinearTransformNode.SetAndObserveMatrixTransformToParent]
            · intro hsim
              rw [CalculateTransform.of_valid toFloat registration s transformType fromNode
                toNode output hf ht ho h3 hne]
              simp [hsim, vtkMRMLLinearTransformNode.SetAndObserveMatrixTransformToParent]
            · intro hexact
              rw [map_toSinglePrecision_of_exact toFloat fromNode.Fiducials
                  (fun p hp => hexact p (List.mem_append_left _ hp)),
                map_toSinglePrecision_of_exact toFloat toNode.Fiducials
                  (fun p hp => hexact p (List.mem_append_right _ hp))]
              rfl
            · intro otherType
              rw [CalculateTransform.of_valid toFloat registration s otherType fromNode
                toNode output hf ht ho h3 hne]
          · rw [CalculateTransform.of_unequal toFloat registration s transformType fromNode
              toNode output hf ht ho h3 hne] at h
            simp at h

/-- C6 fails as stated: with the from list `farFiducials`, whose first position
`(2 ^ 24 + 1, 0, 0)` single precision cannot hold, the solver runs on
`(2 ^ 24, 0, 0)` instead, and the matrix stored is not the solver's result on the
from-list positions: with the stand-in solver its entry `[0][3]` is `-2 ^ 24`,
while on the list positions it would be `-(2 ^ 24 + 1)`. -/
theorem C6_registration_runs_on_single_precision :
    (CalculateTransform toFloatInt sampleRegistration
        ⟨some farFiducials, some threeFiducials, some identityNode, []⟩ "RigidBody").1
      = "Success." ∧
    (CalculateTransform toFloatInt sampleRegistration
        ⟨some farFiducials, some threeFiducials, some identityNode, []⟩ "RigidBody").2.Runs
      = [⟨LandmarkMode.RigidBody,
          ⟨[⟨16777216, 0, 0⟩, ⟨16777218, 0, 0⟩, ⟨16777216, 1, 0⟩]⟩,
          ⟨threeFiducials.Fiducials⟩⟩] ∧
    (∃ after,
      (CalculateTransform toFloatInt sampleRegistration
          ⟨some farFiducials, some threeFiducials, some identityNode, []⟩
          "RigidBody").2.outputTransform = some after ∧
      after.MatrixTransformToParent.GetElement 0 3 = -16777216 ∧
      after.MatrixTransformToParent
        ≠ sampleRegistration LandmarkMode.RigidBody ⟨farFiducials.Fiducials⟩
            ⟨threeFiducials.Fiducials⟩) ∧
    (sampleRegistration LandmarkMode.RigidBody ⟨farFiducials.Fiducials⟩
        ⟨threeFiducials.Fiducials⟩).GetElement 0 3 = -16777217 := by
  rw [CalculateTransform.of_valid toFloatInt sampleRegistration
    ⟨some farFiducials, some threeFiducials, some identityNode, []⟩ "RigidBody"
    farFiducials threeFiducials identityNode rfl rfl rfl (by decide) (by decide)]
  refine ⟨rfl, by decide, ⟨_, rfl, by decide, ?_⟩, by decide⟩
  intro heq
  have h03 := congrFun (congrFun heq 0) 3
  revert h03
  decide

/-- C8: every call, successful or not, leaves both fiducial lists as they were,
in the number of fiducials and in every position; only the output transform node
(and the log of solver runs) can differ after the call. -/
theorem C8_inputs_unchanged {F : Type} [Zero F] [One F] (toFloat : F → F)
    (registration : LandmarkMode → vtkPoints F → vtkPoints F → vtkMatrix4x4 F)
    (s : CallState F) (transformType : String) :
    (CalculateTransform toFloat registration s transformType).2.fromMarkupsFiducialNode
      = s.fromMarkupsFiducialNode ∧
    (CalculateTransform toFloat registration s transformType).2.toMarkupsFiducialNode
      = s.toMarkupsFiducialNode ∧
    (CalculateTransform toFloat registration s transformType).2
      = { s with
          outputTransform :=
            (CalculateTransform toFloat registration s transformType).2.outputTransform,
          Runs := (CalculateTransform toFloat registration s transformType).2.Runs } := by
  have key :
      (CalculateTransform toFloat registration s transformType).2.fromMarkupsFiducialNode
        = s.fromMarkupsFiducialNode ∧
      (CalculateTransform toFloat registration s transformType).2.toMarkupsFiducialNode
        = s.toMarkupsFiducialNode := by
    unfold CalculateTransform
    split
    · split
      · exact ⟨rfl, rfl⟩
      · split
        · exact ⟨rfl, rfl⟩
        · split <;> exact ⟨rfl, rfl⟩
    · exact ⟨rfl, rfl⟩
  refine ⟨key.1, key.2, ?_⟩
  obtain ⟨h1, h2⟩ := key
  revert h1 h2
  generalize (CalculateTransform toFloat registration s transformType).2 = after
  intro h1 h2
  cases after
  cases s
  simp only at h1 h2
  simp only [h1, h2]

/-- C9: for a non-null probe whose transform-to-world matrix is `M`, in a scene
where the active list ID resolves to a fiducial list, `AddFiducial` leaves under
that ID the former list followed by the one point `(M[0][3], M[1][3], M[2][3])`:
the count grows by one, the earlier fiducials keep position and order, every other
node of the scene stays, and a matrix with the same translation column gives the
same result whatever its other entries are. -/
theorem C9_AddFiducial_appends_translation {F : Type}
    (GetMatrixTransformToWorld : vtkMRMLLinearTransformNode F → vtkMatrix4x4 F)
    (this : vtkSlicerFiducialRegistrationWizardLogic F)
    (probe : vtkMRMLLinearTransformNode F)
    (scene : vtkMRMLScene F) (markupsLogic : vtkSlicerMarkupsLogic)
    (list : vtkMRMLMarkupsFiducialNode F)
    (hscene : this.MRMLScene = some scene)
    (hlogic : this.MarkupsLogic = some markupsLogic)
    (hlist : scene.GetNodeByID markupsLogic.ActiveListID
      = some (vtkMRMLNode.MarkupsFiducialNode list)) :
    ∃ after sceneAfter listAfter,
      AddFiducial GetMatrixTransformToWorld this (some probe) = some after ∧
      after.MRMLScene = some sceneAfter ∧
      after.MarkupsLogic = some markupsLogic ∧
      sceneAfter.GetNodeByID markupsLogic.ActiveListID
        = some (vtkMRMLNode.MarkupsFiducialNode listAfter) ∧
      listAfter.Fiducials = list.Fiducials ++
        [⟨(GetMatrixTransformToWorld probe).GetElement 0 3,
          (GetMatrixTransformToWorld probe).GetElement 1 3,
          (GetMatrixTransformToWorld probe).GetElement 2 3⟩] ∧
      listAfter.GetNumberOfFiducials = list.GetNumberOfFiducials + 1 ∧
      (∀ i, i < list.GetNumberOfFiducials →
        listAfter.Fiducials.get? i = list.Fiducials.get? i) ∧
      (∀ id, id ≠ markupsLogic.ActiveListID →
        sceneAfter.GetNodeByID id = scene.GetNodeByID id) ∧
      (∀ (OtherToWorld : vtkMRMLLinearTransformNode F → vtkMatrix4x4 F)
          (otherProbe : vtkMRMLLinearTransformNode F),
        (OtherToWorld otherProbe).GetElement 0 3
            = (GetMatrixTransformToWorld probe).GetElement 0 3 →
        (OtherToWorld otherProbe).GetElement 1 3
            = (GetMatrixTransformToWorld probe).GetElement 1 3 →
        (OtherToWorld otherProbe).GetElement 2 3
            = (GetMatrixTransformToWorld probe).GetElement 2 3 →
        AddFiducial OtherToWorld this (some otherProbe)
          = AddFiducial GetMatrixTransformToWorld this (some probe)) := by
  refine ⟨_, _, _, AddFiducial.of_active_list GetMatrixTransformToWorld this probe scene
    markupsLogic list hscene hlogic hlist, rfl, hlogic,
    vtkMRMLScene.GetNodeByID_StoreNode scene.Nodes markupsLogic.ActiveListID _ _ hlist,
    rfl, ?_, ?_, ?_, ?_⟩
  · simp [vtkMRMLMarkupsFiducialNode.GetNumberOfFiducials]
  · intro i hi
    simp only [vtkMRMLMarkupsFiducialNode.GetNumberOfFiducials] at hi
    simp [List.getElem?_append_left hi]
  · intro id hid
    exact vtkMRMLScene.GetNodeByID_StoreNode_of_ne scene.Nodes markupsLogic.ActiveListID id
      _ hid
  · intro OtherToWorld otherProbe h0 h1 h2
    simp only [vtkMatrix4x4.GetElement] at h0 h1 h2
    rw [AddFiducial.of_active_list OtherToWorld this otherProbe scene markupsLogic list
        hscene hlogic hlist,
      AddFiducial.of_active_list GetMatrixTransformToWorld this probe scene markupsLogic
        list hscene hlogic hlist, h0, h1, h2]

/-- C10, as the code has it: for a fiducial list of `n` fiducials
`MarkupsFiducialNodeToVTKPoints` returns `n` points, and for every `i < n` its
point `i` is the position of fiducial `i` with each coordinate converted to the
single-precision storage of the collection; the points follow the list order, none
dropped, doubled or moved; and when single precision holds every coordinate of
the list exactly, point `i` is the position of fiducial `i` itself. -/
theorem C10_points_follow_fiducials {F : Type} [Zero F] (toFloat : F → F)
    (markupsFiducialNode : vtkMRMLMarkupsFiducialNode F) :
    (MarkupsFiducialNodeToVTKPoints toFloat markupsFiducialNode).GetNumberOfPoints
      = markupsFiducialNode.GetNumberOfFiducials ∧
    (∀ i, i < markupsFiducialNode.GetNumberOfFiducials →
      (MarkupsFiducialNodeToVTKPoints toFloat markupsFiducialNode).GetPoint i
        = some ((markupsFiducialNode.GetNthFiducialPosition i ⟨0, 0, 0⟩).toSinglePrecision
            toFloat)) ∧
    (MarkupsFiducialNodeToVTKPoints toFloat markupsFiducialNode).Data
      = markupsFiducialNode.Fiducials.map (Point.toSinglePrecision toFloat) ∧
    ((∀ p, p ∈ markupsFiducialNode.Fiducials →
        toFloat p.x = p.x ∧ toFloat p.y = p.y ∧ toFloat p.z = p.z) →
      (MarkupsFiducialNodeToVTKPoints toFloat markupsFiducialNode).Data
        = markupsFiducialNode.Fiducials ∧
      ∀ i, (MarkupsFiducialNodeToVTKPoints toFloat markupsFiducialNode).GetPoint i
        = markupsFiducialNode.Fiducials.get? i) := by
  rw [MarkupsFiducialNodeToVTKPoints_eq]
  refine ⟨?_, ?_, rfl, ?_⟩
  · simp [vtkPoints.GetNumberOfPoints, vtkMRMLMarkupsFiducialNode.GetNumberOfFiducials]
  · intro i hi
    simp only [vtkMRMLMarkupsFiducialNode.GetNumberOfFiducials] at hi
    simp [vtkPoints.GetPoint, vtkMRMLMarkupsFiducialNode.GetNthFiducialPosition,
      List.getElem?_eq_getElem hi]
  · intro hexact
    rw [map_toSinglePrecision_of_exact toFloat markupsFiducialNode.Fiducials hexact]
    exact ⟨rfl, fun _ => rfl⟩

/-- C10 fails as stated: the first fiducial of `farFiducials` is at
`(2 ^ 24 + 1, 0, 0)`, and the first point of the collection made from it is
`(2 ^ 24, 0, 0)`. -/
theorem C10_point_is_single_precision :
    farFiducials.Fiducials.get? 0 = some ⟨16777217, 0, 0⟩ ∧
    (MarkupsFiducialNodeToVTKPoints toFloatInt farFiducials).GetPoint 0
      = some ⟨16777216, 0, 0⟩ ∧
    (MarkupsFiducialNodeToVTKPoints toFloatInt farFiducials).GetPoint 0
      ≠ farFiducials.Fiducials.get? 0 := by
  rw [MarkupsFiducialNodeToVTKPoints_eq]
  decide

/-! ## Witnesses -/

/-- C2 at a concrete input: a from list of two fiducials and a to list of three
(so the counts also differ) give the too-few status. -/
theorem C2_too_few_first_witness :
    (twoFiducials.GetNumberOfFiducials < 3 ∨ threeFiducials.GetNumberOfFiducials < 3) ∧
    twoFiducials.GetNumberOfFiducials ≠ threeFiducials.GetNumberOfFiducials ∧
    (CalculateTransform toFloatInt sampleRegistration
        ⟨some twoFiducials, some threeFiducials, some identityNode, []⟩ "RigidBody").1
      = "One or more fiducial lists has too few fiducials." ∧
    (CalculateTransform toFloatInt sampleRegistration
        ⟨some twoFiducials, some threeFiducials, some identityNode, []⟩ "RigidBody").1
      ≠ "Fiducial lists have unequal number of fiducials." :=
  ⟨by decide, by decide,
    C2_too_few_first toFloatInt sampleRegistration
      ⟨some twoFiducials, some threeFiducials, some identityNode, []⟩ "RigidBody"
      twoFiducials threeFiducials identityNode rfl rfl rfl (by decide)⟩

/-- C3 at a concrete input: a from list of three fiducials and a to list of
four. -/
theorem C3_unequal_counts_witness :
    (3 ≤ threeFiducials.GetNumberOfFiducials ∧ 3 ≤ fourFiducials.GetNumberOfFiducials ∧
      threeFiducials.GetNumberOfFiducials ≠ fourFiducials.GetNumberOfFiducials) ∧
    (CalculateTransform toFloatInt sampleRegistration
        ⟨some threeFiducials, some fourFiducials, some identityNode, []⟩ "Similarity").1
      = "Fiducial lists have unequal number of fiducials." ∧
    (CalculateTransform toFloatInt sampleRegistration
        ⟨some threeFiducials, some fourFiducials, some identityNode, []⟩ "Similarity").2.Runs
      = [] ∧
    (CalculateTransform toFloatInt sampleRegistration
        ⟨some threeFiducials, some fourFiducials, some identityNode, []⟩
        "Similarity").2.outputTransform
      = some identityNode ∧
    (CalculateTransform toFloatInt sampleRegistration
        ⟨some threeFiducials, some fourFiducials, some identityNode, []⟩ "Similarity").2
      = ⟨some threeFiducials, some fourFiducials, some identityNode, []⟩ :=
  ⟨by decide,
    C3_unequal_counts toFloatInt sampleRegistration
      ⟨some threeFiducials, some fourFiducials, some identityNode, []⟩ "Similarity"
      threeFiducials fourFiducials identityNode rfl rfl rfl (by decide) (by decide)
      (by decide)⟩

/-- C5 at a concrete input: a failing call (the to list has two fiducials) on an
output node that holds the probe pose. -/
theorem C5_failure_changes_nothing_witness :
    (CalculateTransform toFloatInt sampleRegistration
        ⟨some threeFiducials, some twoFiducials, some probeNode, []⟩ "Similarity").1
      ≠ "Success." ∧
    (CalculateTransform toFloatInt sampleRegistration
        ⟨some threeFiducials, some twoFiducials, some probeNode, []⟩
        "Similarity").2.outputTransform
      = some probeNode ∧
    (CalculateTransform toFloatInt sampleRegistration
        ⟨some threeFiducials, some twoFiducials, some probeNode, []⟩ "Similarity").2.Runs
      = [] :=
  ⟨by decide,
    (C5_failure_changes_nothing toFloatInt sampleRegistration
      ⟨some threeFiducials, some twoFiducials, some probeNode, []⟩ "Similarity"
      (by decide)).1,
    (C5_failure_changes_nothing toFloatInt sampleRegistration
      ⟨some threeFiducials, some twoFiducials, some probeNode, []⟩ "Similarity"
      (by decide)).2.2.1⟩

/-- C6, as the code has it, at a concrete input: with the transform type
"similarity", which is not the string "Similarity", the call succeeds and stores
the rigid-body result; every coordinate is a small whole number, so the solver's
inputs are the list positions themselves. -/
theorem C6_success_stores_registration_witness :
    (CalculateTransform toFloatInt sampleRegistration
        ⟨some threeFiducials, some movedFiducials, some probeNode, []⟩ "similarity").1
      = "Success." ∧
    ∃ after,
      (CalculateTransform toFloatInt sampleRegistration
          ⟨some threeFiducials, some movedFiducials, some probeNode, []⟩
          "similarity").2.outputTransform = some after ∧
      after.MatrixTransformToParent
        = sampleRegistration LandmarkMode.RigidBody ⟨threeFiducials.Fiducials⟩
            ⟨movedFiducials.Fiducials⟩ ∧
      (CalculateTransform toFloatInt sampleRegistration
          ⟨some threeFiducials, some movedFiducials, some probeNode, []⟩
          "similarity").2.Runs
        = [⟨LandmarkMode.RigidBody, ⟨threeFiducials.Fiducials⟩,
            ⟨movedFiducials.Fiducials⟩⟩] := by
  refine ⟨by decide, ?_⟩
  obtain ⟨fromNode, toNode, output, after, hf, ht, -, hafter, -, hrigid, -, -⟩ :=
    C6_success_stores_registration toFloatInt sampleRegistration
      ⟨some threeFiducials, some movedFiducials, some probeNode, []⟩ "similarity"
      (by decide)
  cases hf
  cases ht
  have hfrom : threeFiducials.Fiducials.map (Point.toSinglePrecision toFloatInt)
      = threeFiducials.Fiducials := by decide
  have hto : movedFiducials.Fiducials.map (Point.toSinglePrecision toFloatInt)
      = movedFiducials.Fiducials := by decide
  have hr := hrigid (by decide)
  rw [hfrom, hto] at hr
  exact ⟨after, hafter, hr.1, hr.2⟩

/-- C9 at a concrete input: the probe pose `probeNode`, whose translation column
is `(10, 20, 30)`, captured into the list "F" of `sampleScene`. -/
theorem C9_AddFiducial_appends_translation_witness :
    sampleScene.GetNodeByID "F" = some (vtkMRMLNode.MarkupsFiducialNode twoFiducials) ∧
    ∃ after sceneAfter listAfter,
      AddFiducial topLevelToWorld sampleLogic (some probeNode) = some after ∧
      after.MRMLScene = some sceneAfter ∧
      sceneAfter.GetNodeByID "F" = some (vtkMRMLNode.MarkupsFiducialNode listAfter) ∧
      listAfter.Fiducials = [⟨5, 5, 5⟩, ⟨6, 5, 5⟩, ⟨10, 20, 30⟩] ∧
      sceneAfter.GetNodeByID "G" = sampleScene.GetNodeByID "G" := by
  refine ⟨rfl, ?_⟩
  obtain ⟨after, sceneAfter, listAfter, hcall, hafter, -, hget, hfid, -, -, hother, -⟩ :=
    C9_AddFiducial_appends_translation topLevelToWorld sampleLogic probeNode sampleScene
      ⟨"F"⟩ twoFiducials rfl rfl rfl
  exact ⟨after, sceneAfter, listAfter, hcall, hafter, hget, hfid.trans (by decide),
    hother "G" (by decide)⟩

/-- C1 at concrete inputs: a valid call succeeds, and a call with a `NULL` output
transform does not. -/
theorem C1_success_iff_valid_witness :
    (CalculateTransform toFloatInt sampleRegistration
        ⟨some threeFiducials, some movedFiducials, some identityNode, []⟩ "RigidBody").1
      = "Success." ∧
    (CalculateTransform toFloatInt sampleRegistration
        ⟨some threeFiducials, some movedFiducials, none, []⟩ "RigidBody").1
      = "Output transform is not defined." :=
  ⟨(C1_success_iff_valid toFloatInt sampleRegistration
      ⟨some threeFiducials, some movedFiducials, some identityNode, []⟩ "RigidBody").1.2
      ⟨threeFiducials, movedFiducials, identityNode, rfl, rfl, rfl, by decide, by decide,
        by decide⟩,
    by decide⟩

/-- C4, as the code has it, at concrete inputs: a `NULL` to list, and an empty to
list with a `NULL` output transform. -/
theorem C4_null_list_missing_empty_list_too_few_witness :
    (CalculateTransform toFloatInt sampleRegistration
        ⟨some threeFiducials, none, some identityNode, []⟩ "RigidBody").1
      = "One or more fiducial lists not defined." ∧
    (CalculateTransform toFloatInt sampleRegistration
        ⟨some threeFiducials, some ⟨[]⟩, none, []⟩ "RigidBody").1
      = "Output transform is not defined." :=
  ⟨(C4_null_list_missing_empty_list_too_few toFloatInt sampleRegistration
      ⟨some threeFiducials, none, some identityNode, []⟩ "RigidBody").1 (Or.inr rfl),
    ((C4_null_list_missing_empty_list_too_few toFloatInt sampleRegistration
      ⟨some threeFiducials, some ⟨[]⟩, none, []⟩ "RigidBody").2
      threeFiducials ⟨[]⟩ rfl rfl (Or.inr rfl)).2.1 rfl⟩

/-- C8 at a concrete input: a successful call returns both lists as given. -/
theorem C8_inputs_unchanged_witness :
    (CalculateTransform toFloatInt sampleRegistration
        ⟨some threeFiducials, some movedFiducials, some identityNode, []⟩
        "Similarity").2.fromMarkupsFiducialNode = some threeFiducials ∧
    (CalculateTransform toFloatInt sampleRegistration
        ⟨some threeFiducials, some movedFiducials, some identityNode, []⟩
        "Similarity").2.toMarkupsFiducialNode = some movedFiducials :=
  ⟨(C8_inputs_unchanged toFloatInt sampleRegistration
      ⟨some threeFiducials, some movedFiducials, some identityNode, []⟩ "Similarity").1,
    (C8_inputs_unchanged toFloatInt sampleRegistration
      ⟨some threeFiducials, some movedFiducials, some identityNode, []⟩ "Similarity").2.1⟩


/-- C10, as the code has it, at a concrete input: the three points made from
`farFiducials`. -/
theorem C10_points_follow_fiducials_witness :
    (MarkupsFiducialNodeToVTKPoints toFloatInt farFiducials).GetNumberOfPoints = 3 ∧
    (MarkupsFiducialNodeToVTKPoints toFloatInt farFiducials).Data
      = [⟨16777216, 0, 0⟩, ⟨16777218, 0, 0⟩, ⟨16777216, 1, 0⟩] :=
  ⟨(C10_points_follow_fiducials toFloatInt farFiducials).1,
    (C10_points_follow_fiducials toFloatInt farFiducials).2.2.1.trans (by decide)⟩

end FiducialRegistrationWizard
